import Mathlib

set_option maxRecDepth 100000

/-!
Verification of the PitchSnitch prompt-building / response-parsing core
(`src/app.py`).  The Python functions `_build_analysis_prompt`,
`_parse_claude_response` and `_create_empty_result` of class
`HackathonIdeaCoach` are shallowly embedded below, together with a model
of the parts of the Python runtime they rely on: `str.find`, `str.rfind`,
slicing, and `json.loads`.

Modelling conventions:
* Raw LLM response text is a `List Char`.
* JSON values are the inductive `Json` below.  JSON numbers are modelled
  as integers (`Int`): every payload the schema and the claims speak
  about carries only integer numbers (the 0-5 scores).  A JSON float in
  a `score` slot is outside the model; a non-numeric `score` value is a
  parse failure in the model, as it is observably in the source, where
  `sum(score.score for ...)` raises `TypeError` before any result is
  returned, landing in the same `except` branch.
* Python `dict` semantics (duplicate JSON keys: last value wins, first
  position kept) are modelled by `insertKV` at object-construction time,
  so object member lists always have distinct keys.
* Python `float` arithmetic (the single division producing
  `overall_score`) is modelled exactly over `ℚ`; the spec's "exact to
  floating-point rounding" reading is preserved by working with exact
  rationals.
* Exceptions are modelled by `Option`: `none` means "an exception was
  raised inside the `try` block", which the source converts to
  `_create_empty_result()`.
-/

namespace PitchSnitch

/-- The opening brace character, written via its code point. -/
def lbrace : Char := Char.ofNat 123

/-- The closing brace character, written via its code point. -/
def rbrace : Char := Char.ofNat 125

/-- JSON values as produced by `json.loads` (numbers restricted to
integers, see the module comment). -/
inductive Json where
  | null : Json
  | bool (b : Bool) : Json
  | num (n : Int) : Json
  | str (s : String) : Json
  | arr (items : List Json) : Json
  | obj (members : List (String × Json)) : Json

/-- Model of Python `str.find(c)` (on a character): index of the first
occurrence, `-1` if absent.  Auxiliary with an index accumulator. -/
def pyFindAux : List Char → Char → Nat → Int
  | [], _, _ => -1
  | x :: xs, c, i => if x = c then (i : Int) else pyFindAux xs c (i + 1)

/-- Model of Python `str.find(c)`. -/
def pyFind (s : List Char) (c : Char) : Int := pyFindAux s c 0

/-- Model of Python `str.rfind(c)`: index of the last occurrence, `-1`
if absent (computed through the reversed string). -/
def pyRfind (s : List Char) (c : Char) : Int :=
  let r := pyFind s.reverse c
  if r < 0 then -1 else (s.length : Int) - 1 - r

/-- Normalisation of one Python slice bound: negative indices count from
the end, then the bound is clamped into `[0, len]`. -/
def pyIdx (len : Nat) (i : Int) : Nat :=
  if i < 0 then (i + len).toNat else min i.toNat len

/-- Model of the Python slice `s[a:b]`. -/
def pySlice (s : List Char) (a b : Int) : List Char :=
  (s.take (pyIdx s.length b)).drop (pyIdx s.length a)

/-- JSON whitespace, as accepted by Python's `json.loads`. -/
def isJsonWs (c : Char) : Bool :=
  c = ' ' || c = '\t' || c = '\n' || c = '\r'

/-- Drop leading JSON whitespace. -/
def skipWs : List Char → List Char
  | [] => []
  | c :: cs => if isJsonWs c then skipWs cs else c :: cs

/-- Hexadecimal digit value, for `\uXXXX` escapes. -/
def hexVal (c : Char) : Option Nat :=
  if '0' ≤ c ∧ c ≤ '9' then some (c.toNat - 48)
  else if 'a' ≤ c ∧ c ≤ 'f' then some (c.toNat - 87)
  else if 'A' ≤ c ∧ c ≤ 'F' then some (c.toNat - 55)
  else none

/-- Decimal digit test. -/
def isDigitCh (c : Char) : Bool := '0' ≤ c && c ≤ '9'

/-- Parse the body of a JSON string literal (the opening quote already
consumed), accumulating characters; handles the escapes `json.loads`
accepts.  Surrogate-pair `\u` escapes are outside the model. -/
def parseStringAux : Nat → List Char → List Char → Option (String × List Char)
  | 0, _, _ => none
  | _ + 1, _, [] => none
  | fuel + 1, acc, c :: cs =>
    if c = '"' then some (String.mk acc.reverse, cs)
    else if c = '\\' then
      match cs with
      | [] => none
      | e :: cs' =>
        if e = '"' then parseStringAux fuel ('"' :: acc) cs'
        else if e = '\\' then parseStringAux fuel ('\\' :: acc) cs'
        else if e = '/' then parseStringAux fuel ('/' :: acc) cs'
        else if e = 'b' then parseStringAux fuel ('\x08' :: acc) cs'
        else if e = 'f' then parseStringAux fuel ('\x0c' :: acc) cs'
        else if e = 'n' then parseStringAux fuel ('\n' :: acc) cs'
        else if e = 'r' then parseStringAux fuel ('\r' :: acc) cs'
        else if e = 't' then parseStringAux fuel ('\t' :: acc) cs'
        else if e = 'u' then
          match cs' with
          | h1 :: h2 :: h3 :: h4 :: cs'' =>
            match hexVal h1, hexVal h2, hexVal h3, hexVal h4 with
            | some a, some b, some c2, some d =>
              let n := ((a * 16 + b) * 16 + c2) * 16 + d
              if 0xD800 ≤ n ∧ n ≤ 0xDFFF then none
              else if n < 0x110000 then
                parseStringAux fuel (Char.ofNat n :: acc) cs''
              else none
            | _, _, _, _ => none
          | _ => none
        else none
    else if c.toNat < 0x20 then none
    else parseStringAux fuel (c :: acc) cs

/-- Longest decimal-digit run, folded into a number. -/
def takeDigits : List Char → Nat → Nat × List Char
  | [], n => (n, [])
  | c :: cs, n =>
    if isDigitCh c then takeDigits cs (n * 10 + (c.toNat - 48)) else (n, c :: cs)

/-- After an integer literal, a following `.`, `e` or `E` would start a
JSON float, which is outside this integer-only model: reject it. -/
def noFracFollows : List Char → Bool
  | [] => true
  | c :: _ => ¬ (c = '.' || c = 'e' || c = 'E')

/-- Parse an unsigned JSON integer (`0 | [1-9][0-9]*`, no leading
zeros), rejecting a following fraction/exponent. -/
def parseUInt (s : List Char) : Option (Nat × List Char) :=
  match s with
  | [] => none
  | c :: rest =>
    if c = '0' then
      match rest with
      | d :: _ =>
        if isDigitCh d then none
        else if noFracFollows rest then some (0, rest) else none
      | [] => some (0, [])
    else if isDigitCh c then
      let p := takeDigits rest (c.toNat - 48)
      if noFracFollows p.2 then some p else none
    else none

/-- Parse a (possibly negated) JSON integer. -/
def parseNumber (s : List Char) : Option (Int × List Char) :=
  match s with
  | '-' :: rest => (parseUInt rest).map (fun p => (-(p.1 : Int), p.2))
  | _ => (parseUInt s).map (fun p => ((p.1 : Int), p.2))

/-- Python `dict` insertion: an existing key keeps its position but gets
the new value; a new key is appended. -/
def insertKV : List (String × Json) → String → Json → List (String × Json)
  | [], k, v => [(k, v)]
  | (k', v') :: rest, k, v =>
    if k' = k then (k', v) :: rest else (k', v') :: insertKV rest k v

mutual

/-- Fuel-indexed recursive-descent JSON value parser modelling
`json.loads` (see the module comment for the number restriction). -/
def parseValue : Nat → List Char → Option (Json × List Char)
  | 0, _ => none
  | fuel + 1, s =>
    match skipWs s with
    | [] => none
    | c :: rest =>
      if c = lbrace then
        match skipWs rest with
        | [] => none
        | c2 :: rest2 =>
          if c2 = rbrace then some (.obj [], rest2)
          else parseMembers fuel [] (c2 :: rest2)
      else if c = '[' then
        match skipWs rest with
        | [] => none
        | c2 :: rest2 =>
          if c2 = ']' then some (.arr [], rest2)
          else parseItems fuel [] (c2 :: rest2)
      else if c = '"' then
        (parseStringAux (rest.length + 1) [] rest).map (fun p => (.str p.1, p.2))
      else if c = 't' then
        match rest with
        | 'r' :: 'u' :: 'e' :: r => some (.bool true, r)
        | _ => none
      else if c = 'f' then
        match rest with
        | 'a' :: 'l' :: 's' :: 'e' :: r => some (.bool false, r)
        | _ => none
      else if c = 'n' then
        match rest with
        | 'u' :: 'l' :: 'l' :: r => some (.null, r)
        | _ => none
      else
        (parseNumber (c :: rest)).map (fun p => (.num p.1, p.2))

/-- Object members: `"key" : value (, "key" : value)* `, building a
Python dict via `insertKV`. -/
def parseMembers : Nat → List (String × Json) → List Char → Option (Json × List Char)
  | 0, _, _ => none
  | fuel + 1, acc, s =>
    match skipWs s with
    | '"' :: rest =>
      match parseStringAux (rest.length + 1) [] rest with
      | none => none
      | some (key, r1) =>
        match skipWs r1 with
        | ':' :: r2 =>
          match parseValue fuel r2 with
          | none => none
          | some (v, r3) =>
            match skipWs r3 with
            | ',' :: r4 => parseMembers fuel (insertKV acc key v) r4
            | c :: r4 =>
              if c = rbrace then some (.obj (insertKV acc key v), r4) else none
            | [] => none
        | _ => none
    | _ => none

/-- Array items: `value (, value)* ]`. -/
def parseItems : Nat → List Json → List Char → Option (Json × List Char)
  | 0, _, _ => none
  | fuel + 1, acc, s =>
    match parseValue fuel s with
    | none => none
    | some (v, r) =>
      match skipWs r with
      | ',' :: r2 => parseItems fuel (v :: acc) r2
      | ']' :: r2 => some (.arr (v :: acc).reverse, r2)
      | _ => none

end

/-- Model of `json.loads`: one JSON value, then only trailing
whitespace.  `none` models a raised `JSONDecodeError`. -/
def loads (s : List Char) : Option Json :=
  match parseValue (2 * s.length + 2) s with
  | some (j, rest) => if skipWs rest = [] then some j else none
  | none => none

/-- `@dataclass IdeaInput` (src/app.py lines 11-17).  Python `int`
fields become `Int`. -/
structure IdeaInput where
  idea : String
  target_users : String
  time_constraint : Int
  team_size : Int
  goals : String

/-- `@dataclass EvaluationScore` (src/app.py lines 19-23).  The
dataclass performs no type validation, so `dimension` and `reasoning`
hold whatever JSON value the payload supplied; `score` is `Int` per the
integer-number model (a non-numeric `score` is a failure either way:
here at construction, in the source one line later when `sum` raises). -/
structure EvaluationScore where
  dimension : Json
  score : Int
  reasoning : Json

/-- `@dataclass AnalysisResult` (src/app.py lines 25-34).  Fields other
than `scores` and `overall_score` undergo no validation in the source
and are kept as raw JSON values; `overall_score` (a Python `float`) is
modelled exactly over `ℚ`. -/
structure AnalysisResult where
  executive_summary : Json
  scores : List EvaluationScore
  detailed_plan : Json
  risk_flags : Json
  build_checklist : Json
  tech_stack : Json
  pitch_deck : Json
  overall_score : ℚ

/-- Python dict lookup `d[k]` / `d.get(k)` as an `Option`; member lists
built by `insertKV` have distinct keys, so first match is the value. -/
def dictGet : List (String × Json) → String → Option Json
  | [], _ => none
  | (k', v) :: rest, k => if k' = k then some v else dictGet rest k

/-- The keyword names accepted by `EvaluationScore(**score)`. -/
def scoreKeys : List String := ["dimension", "score", "reasoning"]

/-- Model of `EvaluationScore(**score)` (src/app.py line 125): `score`
must be a mapping whose keys are exactly the three dataclass fields —
an unknown key or a missing key raises `TypeError` (→ `none`).  The
`score` value must be a JSON integer (module comment). -/
def mkScore : Json → Option EvaluationScore
  | .obj kvs =>
    if (kvs.map Prod.fst).all (fun k => k ∈ scoreKeys) then
      match dictGet kvs "dimension", dictGet kvs "score", dictGet kvs "reasoning" with
      | some d, some (.num n), some r => some ⟨d, n, r⟩
      | _, _, _ => none
    else none
  | _ => none

/-- Run `mkScore` over the whole list, failing if any entry fails
(models the list comprehension on src/app.py line 125). -/
def mapOption (f : α → Option β) : List α → Option (List β)
  | [] => some []
  | a :: as =>
    match f a, mapOption f as with
    | some b, some bs => some (b :: bs)
    | _, _ => none

/-- `_create_empty_result` (src/app.py lines 142-152), the sentinel
returned on every failure path.  Note `executive_summary` is the string
"Analysis failed", not the empty string. -/
def create_empty_result : AnalysisResult :=
  { executive_summary := Json.str "Analysis failed"
    scores := []
    detailed_plan := Json.str ""
    risk_flags := Json.arr []
    build_checklist := Json.arr []
    tech_stack := Json.obj []
    pitch_deck := Json.obj []
    overall_score := 0 }

/-- The body of the `try` block of `_parse_claude_response` after
`json.loads` succeeded (src/app.py lines 125-137); `none` models any
raised exception (`KeyError`, `TypeError`, `ZeroDivisionError`).
The source computes `scores` and `overall_score` first (lines 125-126),
then reads the remaining fields while building the `AnalysisResult`
(lines 128-137); every failure lands in the same `except` branch, and
`data.get('tech_stack', {})` / `data.get('pitch_deck', {})` never fail.
A non-dict `data` or non-list `data['scores']` raises at subscripting /
unpacking (or, for an empty iterable, at the division) — all `none`. -/
def buildResult : Json → Option AnalysisResult
  | .obj kvs =>
    match dictGet kvs "scores" with
    | none => none
    | some (.arr entries) =>
      match mapOption mkScore entries with
      | none => none
      | some scores =>
        if scores.length = 0 then none
        else
          match dictGet kvs "executive_summary" with
          | none => none
          | some es =>
            match dictGet kvs "detailed_plan" with
            | none => none
            | some dp =>
              match dictGet kvs "risk_flags" with
              | none => none
              | some rf =>
                match dictGet kvs "build_checklist" with
                | none => none
                | some bc =>
                  some
                    { executive_summary := es
                      scores := scores
                      detailed_plan := dp
                      risk_flags := rf
                      build_checklist := bc
                      tech_stack := (dictGet kvs "tech_stack").getD (Json.obj [])
                      pitch_deck := (dictGet kvs "pitch_deck").getD (Json.obj [])
                      overall_score :=
                        ((scores.map (fun s => (s.score : ℚ))).sum) / (scores.length : ℚ) }
    | some _ => none
  | _ => none

/-- Lines 120-122 of `_parse_claude_response`: the slice between the
first `\x7b` and the last `\x7d` (Python `find`/`rfind` return `-1`
when absent, which the slice then interprets as an index from the
end). -/
def extractJsonStr (response : List Char) : List Char :=
  pySlice response (pyFind response lbrace) (pyRfind response rbrace + 1)

/-- `_parse_claude_response` (src/app.py lines 117-140): extract, parse
and interpret; any exception inside the `try` is converted to
`_create_empty_result()`. -/
def parse_claude_response (response : List Char) : AnalysisResult :=
  match loads (extractJsonStr response) with
  | none => create_empty_result
  | some data => (buildResult data).getD create_empty_result

/-- `self.evaluation_dimensions` (src/app.py lines 39-48): the 8 fixed
dimension labels, in order. -/
def evaluation_dimensions : List String :=
  ["Problem clarity",
   "User value",
   "Market size & urgency",
   "Differentiation/moat",
   "Technical feasibility in 48 hours",
   "Scalability path",
   "Data dependencies",
   "Risks & compliance"]

/-- `_build_analysis_prompt` (src/app.py lines 68-115): the f-string
template with the five input fields spliced in.  The template is written
here as a concatenation of literal chunks, split exactly at the spliced
fields and at the 8 dimension labels; the concatenation equals the
rendered Python f-string character for character (Python `\x7b\x7b` /
`\x7d\x7d` in the source render as single braces, written `\x7b` /
`\x7d` below; apostrophes are written `\x27`).  Python `str(int)`
is modelled by `toString : Int → String`. -/
def build_analysis_prompt (idea_input : IdeaInput) : String :=
  "\nYou are an expert hackathon mentor analyzing a team\x27s idea. Provide a structured analysis.\n\nIDEA: "
  ++ idea_input.idea
  ++ "\nTARGET USERS: "
  ++ idea_input.target_users
  ++ "\nTIME CONSTRAINT: "
  ++ toString idea_input.time_constraint
  ++ " hours\nTEAM SIZE: "
  ++ toString idea_input.team_size
  ++ " people\nGOALS: "
  ++ idea_input.goals
  ++ "\n\nAnalyze this idea across these 8 dimensions (score 0-5 each):\n1. "
  ++ "Problem clarity"
  ++ " (0-5)\n2. "
  ++ "User value"
  ++ " (0-5)\n3. "
  ++ "Market size & urgency"
  ++ " (0-5)\n4. "
  ++ "Differentiation/moat"
  ++ " (0-5)\n5. "
  ++ "Technical feasibility in 48 hours"
  ++ " (0-5)\n6. "
  ++ "Scalability path"
  ++ " (0-5)\n7. "
  ++ "Data dependencies"
  ++ " (0-5)\n8. "
  ++ "Risks & compliance"
  ++ " (0-5)\n\nAlso prepare detailed content for a 5-slide pitch deck presentation. Each slide should have substantial, well-developed content that teams can use directly in their presentations. Make the content comprehensive and compelling for hackathon judges.\n\nPlease respond in this exact JSON format:\n\x7b\n    \"executive_summary\": \"2-3 sentence high-level assessment\",\n    \"scores\": [\n        \x7b\"dimension\": \"Problem clarity\", \"score\": 4, \"reasoning\": \"Clear explanation\"\x7d,\n        // ... continue for all 8 dimensions\n    ],\n    \"detailed_plan\": \"Structured implementation plan with key milestones\",\n    \"risk_flags\": [\"Risk 1\", \"Risk 2\", \"Risk 3\"],\n    \"build_checklist\": [\"Task 1\", \"Task 2\", \"Task 3\", \"...\"],\n    \"tech_stack\": \x7b\n        \"Frontend\": [\"React\", \"TypeScript\", \"Tailwind CSS\"],\n        \"Backend\": [\"Node.js\", \"Express\", \"PostgreSQL\"],\n        \"AI/ML\": [\"OpenAI API\", \"Langchain\"],\n        \"Infrastructure\": [\"Vercel\", \"Supabase\"],\n        \"Tools\": [\"Git\", \"VS Code\", \"Figma\"]\n    \x7d,\n    \"pitch_deck\": \x7b\n        \"slide1_problem\": \"Detailed problem statement (3-4 paragraphs): Start with a compelling hook, describe the pain points in detail, quantify the problem with statistics if possible, clearly define the target audience and their struggles, and explain why this problem matters now. Include emotional impact and urgency.\",\n        \"slide2_solution\": \"Comprehensive solution description (3-4 paragraphs): Clearly explain your solution approach, detail 3-4 key features with specific benefits, highlight what makes your solution unique compared to alternatives, describe the user experience and journey, and explain the core value proposition with concrete examples.\",\n        \"slide3_techstack\": \"Detailed technical approach (3-4 paragraphs): Explain your technology choices and why they\x27re optimal for this problem, describe the system architecture and key components, highlight any innovative technical approaches or algorithms, discuss scalability and performance considerations, and mention specific frameworks, APIs, or tools that make your solution powerful.\",\n        \"slide4_market\": \"Comprehensive market analysis (3-4 paragraphs): Provide market size data with specific numbers (TAM, SAM, SOM if possible), identify target customer segments with demographics, analyze competitors and your competitive advantages, discuss market timing and trends that favor your solution, and include validation evidence like user interviews or early traction.\",\n        \"slide5_business_model\": \"Detailed business strategy (3-4 paragraphs): Clearly explain your revenue model with specific pricing strategy, describe customer acquisition channels and growth tactics, outline key partnerships and distribution strategies, provide financial projections or unit economics, discuss scalability plans and expansion opportunities, and explain your competitive moat and defensibility.\"\n    \x7d\n\x7d\n"

/-- `needle` occurs verbatim (contiguously) somewhere in `hay`. -/
def OccursIn (needle hay : List Char) : Prop :=
  ∃ u v, hay = u ++ needle ++ v

/-- Each listed string occurs verbatim in `hay`, in the given order,
each occurrence strictly after the start of the previous one. -/
def ContainsInOrder (hay : List Char) : List String → Prop
  | [] => True
  | d :: ds => ∃ u v, hay = u ++ d.data ++ v ∧ ContainsInOrder v ds

/-- Concrete fenced response exercising the full schema (C1). -/
def c1resp : List Char :=
  ("Here is the result:\n```json\n\x7b\"executive_summary\": \"Strong idea\", \"scores\": [\x7b\"dimension\": \"Problem clarity\", \"score\": 4, \"reasoning\": \"clear\"\x7d, \x7b\"dimension\": \"User value\", \"score\": 5, \"reasoning\": \"high\"\x7d, \x7b\"dimension\": \"Market size & urgency\", \"score\": 3, \"reasoning\": \"mid\"\x7d, \x7b\"dimension\": \"Differentiation/moat\", \"score\": 2, \"reasoning\": \"weak\"\x7d, \x7b\"dimension\": \"Technical feasibility in 48 hours\", \"score\": 4, \"reasoning\": \"ok\"\x7d, \x7b\"dimension\": \"Scalability path\", \"score\": 3, \"reasoning\": \"fair\"\x7d, \x7b\"dimension\": \"Data dependencies\", \"score\": 5, \"reasoning\": \"few\"\x7d, \x7b\"dimension\": \"Risks & compliance\", \"score\": 4, \"reasoning\": \"low\"\x7d], \"detailed_plan\": \"Build MVP\", \"risk_flags\": [\"scope\"], \"build_checklist\": [\"setup\", \"demo\"], \"tech_stack\": \x7b\"Frontend\": [\"React\"], \"Backend\": [\"FastAPI\"]\x7d, \"pitch_deck\": \x7b\"slide1_problem\": \"p1\", \"slide2_solution\": \"p2\", \"slide3_techstack\": \"p3\", \"slide4_market\": \"p4\", \"slide5_business_model\": \"p5\"\x7d\x7d\n```\nThanks!").data

/-- The parsed score entries of `c1resp`. -/
def c1entries : List Json :=
  [Json.obj [("dimension", Json.str "Problem clarity"), ("score", Json.num 4), ("reasoning", Json.str "clear")],
   Json.obj [("dimension", Json.str "User value"), ("score", Json.num 5), ("reasoning", Json.str "high")],
   Json.obj [("dimension", Json.str "Market size & urgency"), ("score", Json.num 3), ("reasoning", Json.str "mid")],
   Json.obj [("dimension", Json.str "Differentiation/moat"), ("score", Json.num 2), ("reasoning", Json.str "weak")],
   Json.obj [("dimension", Json.str "Technical feasibility in 48 hours"), ("score", Json.num 4), ("reasoning", Json.str "ok")],
   Json.obj [("dimension", Json.str "Scalability path"), ("score", Json.num 3), ("reasoning", Json.str "fair")],
   Json.obj [("dimension", Json.str "Data dependencies"), ("score", Json.num 5), ("reasoning", Json.str "few")],
   Json.obj [("dimension", Json.str "Risks & compliance"), ("score", Json.num 4), ("reasoning", Json.str "low")]]

/-- The constructed `EvaluationScore`s of `c1resp`. -/
def c1scores : List EvaluationScore :=
  [⟨Json.str "Problem clarity", 4, Json.str "clear"⟩,
   ⟨Json.str "User value", 5, Json.str "high"⟩,
   ⟨Json.str "Market size & urgency", 3, Json.str "mid"⟩,
   ⟨Json.str "Differentiation/moat", 2, Json.str "weak"⟩,
   ⟨Json.str "Technical feasibility in 48 hours", 4, Json.str "ok"⟩,
   ⟨Json.str "Scalability path", 3, Json.str "fair"⟩,
   ⟨Json.str "Data dependencies", 5, Json.str "few"⟩,
   ⟨Json.str "Risks & compliance", 4, Json.str "low"⟩]

/-- Tech stack mapping of `c1resp`. -/
def c1ts : Json :=
  Json.obj [("Frontend", Json.arr [Json.str "React"]), ("Backend", Json.arr [Json.str "FastAPI"])]

/-- Pitch deck mapping of `c1resp`. -/
def c1pd : Json :=
  Json.obj [("slide1_problem", Json.str "p1"), ("slide2_solution", Json.str "p2"),
    ("slide3_techstack", Json.str "p3"), ("slide4_market", Json.str "p4"),
    ("slide5_business_model", Json.str "p5")]

/-- The parsed top-level dict of `c1resp`. -/
def c1kvs : List (String × Json) :=
  [("executive_summary", Json.str "Strong idea"),
   ("scores", Json.arr c1entries),
   ("detailed_plan", Json.str "Build MVP"),
   ("risk_flags", Json.arr [Json.str "scope"]),
   ("build_checklist", Json.arr [Json.str "setup", Json.str "demo"]),
   ("tech_stack", c1ts),
   ("pitch_deck", c1pd)]

/-- Valid payload with an empty `scores` array (C5). -/
def c5resp : List Char :=
  ("\x7b\"executive_summary\": \"All good\", \"scores\": [], \"detailed_plan\": \"plan\", \"risk_flags\": [\"r\"], \"build_checklist\": [\"t\"], \"tech_stack\": \x7b\"Frontend\": [\"React\"]\x7d, \"pitch_deck\": \x7b\"slide1_problem\": \"p\"\x7d\x7d").data

/-- The parsed top-level dict of `c5resp`. -/
def c5kvs : List (String × Json) :=
  [("executive_summary", Json.str "All good"),
   ("scores", Json.arr []),
   ("detailed_plan", Json.str "plan"),
   ("risk_flags", Json.arr [Json.str "r"]),
   ("build_checklist", Json.arr [Json.str "t"]),
   ("tech_stack", Json.obj [("Frontend", Json.arr [Json.str "React"])]),
   ("pitch_deck", Json.obj [("slide1_problem", Json.str "p")])]

/-- Valid payload missing `detailed_plan` (C6). -/
def c6resp : List Char :=
  ("\x7b\"executive_summary\": \"ok\", \"scores\": [\x7b\"dimension\": \"d\", \"score\": 4, \"reasoning\": \"r\"\x7d], \"risk_flags\": [], \"build_checklist\": []\x7d").data

/-- The parsed top-level dict of `c6resp`. -/
def c6kvs : List (String × Json) :=
  [("executive_summary", Json.str "ok"),
   ("scores", Json.arr [Json.obj [("dimension", Json.str "d"), ("score", Json.num 4), ("reasoning", Json.str "r")]]),
   ("risk_flags", Json.arr []),
   ("build_checklist", Json.arr [])]

/-- Valid payload lacking `tech_stack` and `pitch_deck` (C7). -/
def c7resp : List Char :=
  ("\x7b\"executive_summary\": \"fine\", \"scores\": [\x7b\"dimension\": \"d\", \"score\": 4, \"reasoning\": \"r\"\x7d, \x7b\"dimension\": \"e\", \"score\": 2, \"reasoning\": \"s\"\x7d], \"detailed_plan\": \"go\", \"risk_flags\": [\"f\"], \"build_checklist\": [\"c\"]\x7d").data

/-- The parsed score entries of `c7resp`. -/
def c7entries : List Json :=
  [Json.obj [("dimension", Json.str "d"), ("score", Json.num 4), ("reasoning", Json.str "r")],
   Json.obj [("dimension", Json.str "e"), ("score", Json.num 2), ("reasoning", Json.str "s")]]

/-- The constructed scores of `c7resp`. -/
def c7scores : List EvaluationScore :=
  [⟨Json.str "d", 4, Json.str "r"⟩, ⟨Json.str "e", 2, Json.str "s"⟩]

/-- The parsed top-level dict of `c7resp`. -/
def c7kvs : List (String × Json) :=
  [("executive_summary", Json.str "fine"),
   ("scores", Json.arr c7entries),
   ("detailed_plan", Json.str "go"),
   ("risk_flags", Json.arr [Json.str "f"]),
   ("build_checklist", Json.arr [Json.str "c"])]

/-- Valid payload whose single score is out of the 0-5 range (C9). -/
def c9resp : List Char :=
  ("\x7b\"executive_summary\": \"ok\", \"scores\": [\x7b\"dimension\": \"Problem clarity\", \"score\": 7, \"reasoning\": \"r\"\x7d], \"detailed_plan\": \"p\", \"risk_flags\": [], \"build_checklist\": []\x7d").data

/-- The parsed score entries of `c9resp`. -/
def c9entries : List Json :=
  [Json.obj [("dimension", Json.str "Problem clarity"), ("score", Json.num 7), ("reasoning", Json.str "r")]]

/-- The parsed top-level dict of `c9resp`. -/
def c9kvs : List (String × Json) :=
  [("executive_summary", Json.str "ok"),
   ("scores", Json.arr c9entries),
   ("detailed_plan", Json.str "p"),
   ("risk_flags", Json.arr []),
   ("build_checklist", Json.arr [])]

/-- Valid payload whose score entry has an unknown key (C10). -/
def c10resp : List Char :=
  ("\x7b\"executive_summary\": \"ok\", \"scores\": [\x7b\"extra\": 1, \"dimension\": \"d\", \"score\": 4, \"reasoning\": \"r\"\x7d], \"detailed_plan\": \"p\", \"risk_flags\": [], \"build_checklist\": []\x7d").data

/-- The parsed score entry member list of `c10resp`. -/
def c10ekvs : List (String × Json) :=
  [("extra", Json.num 1), ("dimension", Json.str "d"), ("score", Json.num 4), ("reasoning", Json.str "r")]

/-- The parsed top-level dict of `c10resp`. -/
def c10kvs : List (String × Json) :=
  [("executive_summary", Json.str "ok"),
   ("scores", Json.arr [Json.obj c10ekvs]),
   ("detailed_plan", Json.str "p"),
   ("risk_flags", Json.arr []),
   ("build_checklist", Json.arr [])]

theorem occurs_self (n : List Char) : OccursIn n n :=
  ⟨[], [], by simp⟩

theorem occurs_right (t : List Char) {n hay : List Char} (h : OccursIn n hay) :
    OccursIn n (t ++ hay) := by
  obtain ⟨u, v, rfl⟩ := h
  exact ⟨t ++ u, v, by simp⟩

theorem occurs_left (t : List Char) {n hay : List Char} (h : OccursIn n hay) :
    OccursIn n (hay ++ t) := by
  obtain ⟨u, v, rfl⟩ := h
  exact ⟨u, v ++ t, by simp⟩

theorem cio_prepend (t : List Char) {hay : List Char} {ds : List String}
    (h : ContainsInOrder hay ds) : ContainsInOrder (t ++ hay) ds := by
  cases ds with
  | nil => simp [ContainsInOrder]
  | cons d ds =>
    obtain ⟨u, v, rfl, hrest⟩ := h
    exact ⟨t ++ u, v, by simp, hrest⟩

theorem cio_here (d : String) {v : List Char} {ds : List String}
    (h : ContainsInOrder v ds) : ContainsInOrder (d.data ++ v) (d :: ds) :=
  ⟨[], v, by simp, h⟩

/-- The rendered prompt, decomposed into its literal chunks and spliced fields. -/
theorem build_prompt_data (i : IdeaInput) : (build_analysis_prompt i).data =
    ("\nYou are an expert hackathon mentor analyzing a team\x27s idea. Provide a structured analysis.\n\nIDEA: ").data
    ++ i.idea.data
    ++ ("\nTARGET USERS: ").data
    ++ i.target_users.data
    ++ ("\nTIME CONSTRAINT: ").data
    ++ (toString i.time_constraint).data
    ++ (" hours\nTEAM SIZE: ").data
    ++ (toString i.team_size).data
    ++ (" people\nGOALS: ").data
    ++ i.goals.data
    ++ ("\n\nAnalyze this idea across these 8 dimensions (score 0-5 each):\n1. ").data
    ++ ("Problem clarity").data
    ++ (" (0-5)\n2. ").data
    ++ ("User value").data
    ++ (" (0-5)\n3. ").data
    ++ ("Market size & urgency").data
    ++ (" (0-5)\n4. ").data
    ++ ("Differentiation/moat").data
    ++ (" (0-5)\n5. ").data
    ++ ("Technical feasibility in 48 hours").data
    ++ (" (0-5)\n6. ").data
    ++ ("Scalability path").data
    ++ (" (0-5)\n7. ").data
    ++ ("Data dependencies").data
    ++ (" (0-5)\n8. ").data
    ++ ("Risks & compliance").data
    ++ (" (0-5)\n\nAlso prepare detailed content for a 5-slide pitch deck presentation. Each slide should have substantial, well-developed content that teams can use directly in their presentations. Make the content comprehensive and compelling for hackathon judges.\n\nPlease respond in this exact JSON format:\n\x7b\n    \"executive_summary\": \"2-3 sentence high-level assessment\",\n    \"scores\": [\n        \x7b\"dimension\": \"Problem clarity\", \"score\": 4, \"reasoning\": \"Clear explanation\"\x7d,\n        // ... continue for all 8 dimensions\n    ],\n    \"detailed_plan\": \"Structured implementation plan with key milestones\",\n    \"risk_flags\": [\"Risk 1\", \"Risk 2\", \"Risk 3\"],\n    \"build_checklist\": [\"Task 1\", \"Task 2\", \"Task 3\", \"...\"],\n    \"tech_stack\": \x7b\n        \"Frontend\": [\"React\", \"TypeScript\", \"Tailwind CSS\"],\n        \"Backend\": [\"Node.js\", \"Express\", \"PostgreSQL\"],\n        \"AI/ML\": [\"OpenAI API\", \"Langchain\"],\n        \"Infrastructure\": [\"Vercel\", \"Supabase\"],\n        \"Tools\": [\"Git\", \"VS Code\", \"Figma\"]\n    \x7d,\n    \"pitch_deck\": \x7b\n        \"slide1_problem\": \"Detailed problem statement (3-4 paragraphs): Start with a compelling hook, describe the pain points in detail, quantify the problem with statistics if possible, clearly define the target audience and their struggles, and explain why this problem matters now. Include emotional impact and urgency.\",\n        \"slide2_solution\": \"Comprehensive solution description (3-4 paragraphs): Clearly explain your solution approach, detail 3-4 key features with specific benefits, highlight what makes your solution unique compared to alternatives, describe the user experience and journey, and explain the core value proposition with concrete examples.\",\n        \"slide3_techstack\": \"Detailed technical approach (3-4 paragraphs): Explain your technology choices and why they\x27re optimal for this problem, describe the system architecture and key components, highlight any innovative technical approaches or algorithms, discuss scalability and performance considerations, and mention specific frameworks, APIs, or tools that make your solution powerful.\",\n        \"slide4_market\": \"Comprehensive market analysis (3-4 paragraphs): Provide market size data with specific numbers (TAM, SAM, SOM if possible), identify target customer segments with demographics, analyze competitors and your competitive advantages, discuss market timing and trends that favor your solution, and include validation evidence like user interviews or early traction.\",\n        \"slide5_business_model\": \"Detailed business strategy (3-4 paragraphs): Clearly explain your revenue model with specific pricing strategy, describe customer acquisition channels and growth tactics, outline key partnerships and distribution strategies, provide financial projections or unit economics, discuss scalability plans and expansion opportunities, and explain your competitive moat and defensibility.\"\n    \x7d\n\x7d\n").data := rfl

/-- Right-associated form of the same decomposition. -/
theorem build_prompt_dataR (i : IdeaInput) : (build_analysis_prompt i).data =
    ("\nYou are an expert hackathon mentor analyzing a team\x27s idea. Provide a structured analysis.\n\nIDEA: ").data
    ++ (i.idea.data
    ++ (("\nTARGET USERS: ").data
    ++ (i.target_users.data
    ++ (("\nTIME CONSTRAINT: ").data
    ++ ((toString i.time_constraint).data
    ++ ((" hours\nTEAM SIZE: ").data
    ++ ((toString i.team_size).data
    ++ ((" people\nGOALS: ").data
    ++ (i.goals.data
    ++ (("\n\nAnalyze this idea across these 8 dimensions (score 0-5 each):\n1. ").data
    ++ (("Problem clarity").data
    ++ ((" (0-5)\n2. ").data
    ++ (("User value").data
    ++ ((" (0-5)\n3. ").data
    ++ (("Market size & urgency").data
    ++ ((" (0-5)\n4. ").data
    ++ (("Differentiation/moat").data
    ++ ((" (0-5)\n5. ").data
    ++ (("Technical feasibility in 48 hours").data
    ++ ((" (0-5)\n6. ").data
    ++ (("Scalability path").data
    ++ ((" (0-5)\n7. ").data
    ++ (("Data dependencies").data
    ++ ((" (0-5)\n8. ").data
    ++ (("Risks & compliance").data
    ++ ((" (0-5)\n\nAlso prepare detailed content for a 5-slide pitch deck presentation. Each slide should have substantial, well-developed content that teams can use directly in their presentations. Make the content comprehensive and compelling for hackathon judges.\n\nPlease respond in this exact JSON format:\n\x7b\n    \"executive_summary\": \"2-3 sentence high-level assessment\",\n    \"scores\": [\n        \x7b\"dimension\": \"Problem clarity\", \"score\": 4, \"reasoning\": \"Clear explanation\"\x7d,\n        // ... continue for all 8 dimensions\n    ],\n    \"detailed_plan\": \"Structured implementation plan with key milestones\",\n    \"risk_flags\": [\"Risk 1\", \"Risk 2\", \"Risk 3\"],\n    \"build_checklist\": [\"Task 1\", \"Task 2\", \"Task 3\", \"...\"],\n    \"tech_stack\": \x7b\n        \"Frontend\": [\"React\", \"TypeScript\", \"Tailwind CSS\"],\n        \"Backend\": [\"Node.js\", \"Express\", \"PostgreSQL\"],\n        \"AI/ML\": [\"OpenAI API\", \"Langchain\"],\n        \"Infrastructure\": [\"Vercel\", \"Supabase\"],\n        \"Tools\": [\"Git\", \"VS Code\", \"Figma\"]\n    \x7d,\n    \"pitch_deck\": \x7b\n        \"slide1_problem\": \"Detailed problem statement (3-4 paragraphs): Start with a compelling hook, describe the pain points in detail, quantify the problem with statistics if possible, clearly define the target audience and their struggles, and explain why this problem matters now. Include emotional impact and urgency.\",\n        \"slide2_solution\": \"Comprehensive solution description (3-4 paragraphs): Clearly explain your solution approach, detail 3-4 key features with specific benefits, highlight what makes your solution unique compared to alternatives, describe the user experience and journey, and explain the core value proposition with concrete examples.\",\n        \"slide3_techstack\": \"Detailed technical approach (3-4 paragraphs): Explain your technology choices and why they\x27re optimal for this problem, describe the system architecture and key components, highlight any innovative technical approaches or algorithms, discuss scalability and performance considerations, and mention specific frameworks, APIs, or tools that make your solution powerful.\",\n        \"slide4_market\": \"Comprehensive market analysis (3-4 paragraphs): Provide market size data with specific numbers (TAM, SAM, SOM if possible), identify target customer segments with demographics, analyze competitors and your competitive advantages, discuss market timing and trends that favor your solution, and include validation evidence like user interviews or early traction.\",\n        \"slide5_business_model\": \"Detailed business strategy (3-4 paragraphs): Clearly explain your revenue model with specific pricing strategy, describe customer acquisition channels and growth tactics, outline key partnerships and distribution strategies, provide financial projections or unit economics, discuss scalability plans and expansion opportunities, and explain your competitive moat and defensibility.\"\n    \x7d\n\x7d\n").data)))))))))))))))))))))))))) := by
  rw [build_prompt_data]
  repeat rw [List.append_assoc]

theorem cio_nil (hay : List Char) : ContainsInOrder hay [] := True.intro

/-- C8: `_build_analysis_prompt` is a pure deterministic function of its
`IdeaInput` (repeated calls give identical strings by reflexivity of the
functional model); the prompt embeds each of the five field values
(`idea`, `target_users`, `time_constraint`, `team_size`, `goals`)
verbatim at least once; and it lists the 8 fixed evaluation dimensions
with their exact labels in the fixed source order. -/
theorem c8_prompt_builder (i : IdeaInput) :
    build_analysis_prompt i = build_analysis_prompt i ∧
    OccursIn i.idea.data (build_analysis_prompt i).data ∧
    OccursIn i.target_users.data (build_analysis_prompt i).data ∧
    OccursIn (toString i.time_constraint).data (build_analysis_prompt i).data ∧
    OccursIn (toString i.team_size).data (build_analysis_prompt i).data ∧
    OccursIn i.goals.data (build_analysis_prompt i).data ∧
    ContainsInOrder (build_analysis_prompt i).data evaluation_dimensions := by
  rw [build_prompt_dataR]
  unfold evaluation_dimensions
  refine ⟨rfl, ?_, ?_, ?_, ?_, ?_, ?_⟩
  · exact occurs_right _ (occurs_left _ (occurs_self _))
  · exact occurs_right _ (occurs_right _ (occurs_right _ (occurs_left _ (occurs_self _))))
  · exact occurs_right _ (occurs_right _ (occurs_right _ (occurs_right _ (occurs_right _ (occurs_left _ (occurs_self _))))))
  · exact occurs_right _ (occurs_right _ (occurs_right _ (occurs_right _ (occurs_right _ (occurs_right _ (occurs_right _ (occurs_left _ (occurs_self _))))))))
  · exact occurs_right _ (occurs_right _ (occurs_right _ (occurs_right _ (occurs_right _ (occurs_right _ (occurs_right _ (occurs_right _ (occurs_right _ (occurs_left _ (occurs_self _))))))))))
  · exact cio_prepend _ (cio_prepend _ (cio_prepend _ (cio_prepend _ (cio_prepend _ (cio_prepend _ (cio_prepend _ (cio_prepend _ (cio_prepend _ (cio_prepend _ (cio_prepend _ (cio_here _ (cio_prepend _ (cio_here _ (cio_prepend _ (cio_here _ (cio_prepend _ (cio_here _ (cio_prepend _ (cio_here _ (cio_prepend _ (cio_here _ (cio_prepend _ (cio_here _ (cio_prepend _ (cio_here _ (cio_nil _))))))))))))))))))))))))))

theorem mapOption_length {f : α → Option β} : ∀ {l : List α} {l' : List β},
    mapOption f l = some l' → l'.length = l.length
  | [], l', h => by simp [mapOption] at h; simp [← h]
  | a :: as, l', h => by
    unfold mapOption at h
    cases hfa : f a with
    | none => rw [hfa] at h; simp at h
    | some b =>
      rw [hfa] at h
      cases hrest : mapOption f as with
      | none => rw [hrest] at h; simp at h
      | some bs =>
        rw [hrest] at h
        simp at h
        subst h
        simp [mapOption_length hrest]

theorem mapOption_none_of_mem {f : α → Option β} : ∀ {l : List α} {a : α},
    a ∈ l → f a = none → mapOption f l = none
  | b :: bs, a, h, hfa => by
    unfold mapOption
    rcases List.mem_cons.mp h with rfl | hmem
    · rw [hfa]
    · rw [mapOption_none_of_mem hmem hfa]
      cases f b <;> rfl

theorem buildResult_success {kvs : List (String × Json)} {entries : List Json}
    {scores : List EvaluationScore} {es dp rf bc : Json}
    (hscores : dictGet kvs "scores" = some (Json.arr entries))
    (hmk : mapOption mkScore entries = some scores)
    (hne : scores.length ≠ 0)
    (hes : dictGet kvs "executive_summary" = some es)
    (hdp : dictGet kvs "detailed_plan" = some dp)
    (hrf : dictGet kvs "risk_flags" = some rf)
    (hbc : dictGet kvs "build_checklist" = some bc) :
    buildResult (Json.obj kvs) = some
      { executive_summary := es
        scores := scores
        detailed_plan := dp
        risk_flags := rf
        build_checklist := bc
        tech_stack := (dictGet kvs "tech_stack").getD (Json.obj [])
        pitch_deck := (dictGet kvs "pitch_deck").getD (Json.obj [])
        overall_score :=
          ((scores.map (fun s => (s.score : ℚ))).sum) / (scores.length : ℚ) } := by
  simp only [buildResult, hscores, hmk, if_neg hne, hes, hdp, hrf, hbc]

theorem buildResult_spec {d : Json} {r : AnalysisResult} (h : buildResult d = some r) :
    r.scores ≠ [] ∧
      r.overall_score = ((r.scores.map (fun s => (s.score : ℚ))).sum) / (r.scores.length : ℚ) := by
  unfold buildResult at h
  split at h
  · split at h
    · exact absurd h (by simp)
    next kvs entries heq =>
      split at h
      · exact absurd h (by simp)
      next scores hmk =>
        split at h
        · exact absurd h (by simp)
        next hne =>
          split at h
          · exact absurd h (by simp)
          next es hes =>
            split at h
            · exact absurd h (by simp)
            next dp hdp =>
              split at h
              · exact absurd h (by simp)
              next rf hrf =>
                split at h
                · exact absurd h (by simp)
                next bc hbc =>
                  cases Option.some.inj h
                  refine ⟨fun hnil => hne ?_, rfl⟩
                  simp only [] at hnil
                  simp [hnil]
    · exact absurd h (by simp)
  · exact absurd h (by simp)

/-- If any required step of the interpretation fails — a missing
required top-level key, a bad score entry, or an empty scores list —
`buildResult` yields `none`. -/
theorem buildResult_none_cases {kvs : List (String × Json)}
    (h : dictGet kvs "scores" = none
      ∨ (∃ entries, dictGet kvs "scores" = some (Json.arr entries)
          ∧ mapOption mkScore entries = none)
      ∨ (∃ entries scores, dictGet kvs "scores" = some (Json.arr entries)
          ∧ mapOption mkScore entries = some scores ∧ scores.length = 0)
      ∨ dictGet kvs "executive_summary" = none
      ∨ dictGet kvs "detailed_plan" = none
      ∨ dictGet kvs "risk_flags" = none
      ∨ dictGet kvs "build_checklist" = none) :
    buildResult (Json.obj kvs) = none := by
  simp only [buildResult]
  rcases h with h | ⟨e, h1, h2⟩ | ⟨e, sc, h1, h2, h3⟩ | h | h | h | h
  · rw [h]
  · simp only [h1, h2]
  · simp only [h1, h2, if_pos h3]
  all_goals (repeat' split)
  all_goals first
    | rfl
    | simp_all

/-- `parse_claude_response` returns the sentinel whenever the payload
fails to load or fails to interpret. -/
theorem parse_fail_sentinel {response : List Char}
    (h : ∀ d, loads (extractJsonStr response) = some d → buildResult d = none) :
    parse_claude_response response = create_empty_result := by
  unfold parse_claude_response
  cases hl : loads (extractJsonStr response) with
  | none => rfl
  | some d =>
    show (buildResult d).getD create_empty_result = create_empty_result
    rw [h d hl]
    rfl

theorem pyFindAux_of_not_mem {s : List Char} {c : Char} (h : c ∉ s) :
    ∀ i : Nat, pyFindAux s c i = -1 := by
  induction s with
  | nil => intro i; rfl
  | cons x xs ih =>
    intro i
    simp only [pyFindAux]
    rw [if_neg (fun hx => h (by rw [← hx]; exact List.mem_cons_self x xs)),
      ih (fun hm => h (List.mem_cons_of_mem _ hm))]

theorem pyFindAux_spec (c : Char) :
    ∀ (s : List Char) (i : Nat), pyFindAux s c i = -1 ∨
      ∃ j : Nat, j < s.length ∧ pyFindAux s c i = ((i : Int) + j) ∧ s[j]? = some c := by
  intro s
  induction s with
  | nil => intro i; left; rfl
  | cons x xs ih =>
    intro i
    by_cases hx : x = c
    · right
      exact ⟨0, by simp, by simp [pyFindAux, hx], by simp [hx]⟩
    · rcases ih (i + 1) with h | ⟨j, hj, heq, hget⟩
      · left; simp [pyFindAux, hx, h]
      · right
        refine ⟨j + 1, by simpa using hj, ?_, by simpa using hget⟩
        simp only [pyFindAux, if_neg hx]
        rw [heq]
        push_cast
        ring

theorem pyRfind_cases (s : List Char) (c : Char) :
    pyRfind s c = -1 ∨
      ∃ j : Nat, j < s.length ∧ pyRfind s c = (j : Int) ∧ s[j]? = some c := by
  unfold pyRfind pyFind
  rcases pyFindAux_spec c s.reverse 0 with h | ⟨r, hr, heq, hget⟩
  · left; rw [h]; rfl
  · right
    rw [List.length_reverse] at hr
    have hlen : 1 ≤ s.length := by omega
    refine ⟨s.length - 1 - r, by omega, ?_, ?_⟩
    · rw [heq]
      rw [if_neg (by omega)]
      push_cast
      omega
    · rw [List.getElem?_eq_getElem (by rw [List.length_reverse]; omega)] at hget
      have hrev := Option.some.inj hget
      rw [List.getElem?_eq_getElem (by omega), Option.some.injEq]
      exact (List.getElem_reverse ..).symm.trans hrev

theorem pyIdx_le (len : Nat) (i : Int) : pyIdx len i ≤ len := by
  unfold pyIdx
  split <;> omega

/-- With no opening brace in the raw text, Python's `find` returns `-1`,
the slice keeps at most the final character, and that character can only
be a closing brace — never a parsable JSON document. -/
theorem loads_extract_of_no_lbrace {s : List Char} (h : lbrace ∉ s) :
    loads (extractJsonStr s) = none := by
  have hfind : pyFind s lbrace = -1 := pyFindAux_of_not_mem h 0
  unfold extractJsonStr pySlice
  rw [hfind]
  rcases Nat.eq_zero_or_pos s.length with hlen | hlen
  · rw [List.length_eq_zero.mp hlen]
    rfl
  · have ha : pyIdx s.length (-1) = s.length - 1 := by
      unfold pyIdx
      rw [if_pos (by omega)]
      omega
    rw [ha]
    rcases Nat.lt_or_ge (pyIdx s.length (pyRfind s rbrace + 1)) s.length with hbl | hbg
    · rw [List.drop_eq_nil_of_le (by rw [List.length_take]; omega)]
      rfl
    · have hbe : pyIdx s.length (pyRfind s rbrace + 1) = s.length :=
        le_antisymm (pyIdx_le _ _) hbg
      rw [hbe, List.take_length]
      rcases pyRfind_cases s rbrace with hrf | ⟨j, hj, hrfe, hget⟩
      · exfalso
        rw [hrf] at hbe
        unfold pyIdx at hbe
        rw [if_neg (by omega)] at hbe
        omega
      · have hj1 : j = s.length - 1 := by
          rw [hrfe] at hbe
          unfold pyIdx at hbe
          rw [if_neg (by omega)] at hbe
          omega
        subst hj1
        rw [List.getElem?_eq_getElem (by omega)] at hget
        have hlast := Option.some.inj hget
        have hdrop : s.drop (s.length - 1) = [rbrace] := by
          rw [List.drop_eq_getElem_cons (by omega)]
          have h2 : s.length - 1 + 1 = s.length := by omega
          rw [h2, List.drop_length]
          simp [hlast]
        rw [hdrop]
        rfl


/-- Either the interpreter fails (sentinel) or some payload loaded and
interpreted successfully. -/
theorem parse_cases (response : List Char) :
    parse_claude_response response = create_empty_result ∨
      ∃ d r, loads (extractJsonStr response) = some d ∧ buildResult d = some r ∧
        parse_claude_response response = r := by
  unfold parse_claude_response
  cases hl : loads (extractJsonStr response) with
  | none => left; rfl
  | some d =>
    cases hb : buildResult d with
    | none =>
      left
      show (buildResult d).getD create_empty_result = _
      rw [hb]
      rfl
    | some r =>
      right
      refine ⟨d, r, rfl, hb, ?_⟩
      show (buildResult d).getD create_empty_result = r
      rw [hb]
      rfl

/-- A score entry missing one of the three required dataclass fields
makes `EvaluationScore(**score)` raise (`TypeError`). -/
theorem mkScore_missing_key {ekvs : List (String × Json)}
    (h : dictGet ekvs "dimension" = none ∨ dictGet ekvs "score" = none
      ∨ dictGet ekvs "reasoning" = none) :
    mkScore (Json.obj ekvs) = none := by
  simp only [mkScore]
  split
  · repeat' split
    all_goals first
      | rfl
      | (rcases h with h | h | h <;> simp_all)
  · rfl

/-- A score entry carrying an unknown key makes `EvaluationScore(**score)`
raise (`TypeError: unexpected keyword argument`). -/
theorem mkScore_alien_key {ekvs : List (String × Json)} {k : String} {v : Json}
    (hkv : (k, v) ∈ ekvs) (hnk : ¬ k ∈ scoreKeys) :
    mkScore (Json.obj ekvs) = none := by
  simp only [mkScore]
  rw [if_neg]
  intro hall
  rw [List.all_eq_true] at hall
  exact hnk (by simpa using hall k (by simpa using List.mem_map_of_mem Prod.fst hkv))

/-- C1: any raw response whose first-brace/last-brace slice parses as a
JSON object matching the full fixed schema — 8 score entries each
supplying exactly dimension, score and reasoning; executive_summary,
detailed_plan, risk_flags, build_checklist present; tech_stack and
pitch_deck present — even when wrapped in prose or markdown fences,
yields an `AnalysisResult` reproducing every payload field losslessly,
with `overall_score` the mean of the scores. -/
theorem c1_schema_round_trip (response : List Char) (kvs : List (String × Json))
    (entries : List Json) (scores : List EvaluationScore) (es dp rf bc ts pd : Json)
    (hload : loads (extractJsonStr response) = some (Json.obj kvs))
    (hscores : dictGet kvs "scores" = some (Json.arr entries))
    (hmk : mapOption mkScore entries = some scores)
    (hlen : entries.length = 8)
    (hes : dictGet kvs "executive_summary" = some es)
    (hdp : dictGet kvs "detailed_plan" = some dp)
    (hrf : dictGet kvs "risk_flags" = some rf)
    (hbc : dictGet kvs "build_checklist" = some bc)
    (hts : dictGet kvs "tech_stack" = some ts)
    (hpd : dictGet kvs "pitch_deck" = some pd) :
    parse_claude_response response =
      { executive_summary := es, scores := scores, detailed_plan := dp,
        risk_flags := rf, build_checklist := bc, tech_stack := ts, pitch_deck := pd,
        overall_score :=
          ((scores.map (fun s => (s.score : ℚ))).sum) / (scores.length : ℚ) } := by
  have hne : scores.length ≠ 0 := by rw [mapOption_length hmk, hlen]; omega
  unfold parse_claude_response
  rw [hload]
  show (buildResult (Json.obj kvs)).getD create_empty_result = _
  rw [buildResult_success hscores hmk hne hes hdp hrf hbc]
  simp [hts, hpd]

/-- C1 witness: the fenced full-schema payload `c1resp` round-trips. -/
theorem c1_witness :
    parse_claude_response c1resp =
      { executive_summary := Json.str "Strong idea", scores := c1scores,
        detailed_plan := Json.str "Build MVP", risk_flags := Json.arr [Json.str "scope"],
        build_checklist := Json.arr [Json.str "setup", Json.str "demo"],
        tech_stack := c1ts, pitch_deck := c1pd,
        overall_score :=
          ((c1scores.map (fun s => (s.score : ℚ))).sum) / (c1scores.length : ℚ) } :=
  c1_schema_round_trip c1resp c1kvs c1entries c1scores _ _ _ _ _ _
    rfl rfl rfl rfl rfl rfl rfl rfl rfl rfl

/-- C2: every `AnalysisResult` the interpreter produces satisfies the
mean invariant: `overall_score` is the arithmetic mean of the scores
when `scores` is non-empty, and exactly `0` when `scores` is empty. -/
theorem c2_mean_invariant (response : List Char) :
    ((parse_claude_response response).scores = [] →
        (parse_claude_response response).overall_score = 0) ∧
    ((parse_claude_response response).scores ≠ [] →
        (parse_claude_response response).overall_score =
          (((parse_claude_response response).scores.map (fun s => (s.score : ℚ))).sum)
            / (((parse_claude_response response).scores.length : ℚ))) := by
  rcases parse_cases response with h | ⟨d, r, hl, hb, h⟩
  · rw [h]
    exact ⟨fun _ => rfl, fun hne => absurd rfl hne⟩
  · rw [h]
    obtain ⟨hne, hmean⟩ := buildResult_spec hb
    exact ⟨fun h0 => absurd h0 hne, fun _ => hmean⟩

/-- C2 witness: a failure input lands in the empty-scores branch with
`overall_score = 0`. -/
theorem c2_witness :
    (parse_claude_response (("the model crashed").data)).overall_score = 0 :=
  (c2_mean_invariant (("the model crashed").data)).1 rfl

/-- C3 (amended): on raw text with no opening brace, or whose slice is
not valid JSON, the interpreter raises nothing (it is a total function)
and returns exactly `create_empty_result` — whose `executive_summary` is
the string "Analysis failed", not the empty string. -/
theorem c3_malformed_input_sentinel (response : List Char)
    (h : lbrace ∉ response ∨ loads (extractJsonStr response) = none) :
    parse_claude_response response = create_empty_result := by
  have hnone : loads (extractJsonStr response) = none := by
    rcases h with h | h
    · exact loads_extract_of_no_lbrace h
    · exact h
  unfold parse_claude_response
  rw [hnone]

/-- C3 witness: a plain-prose reply with no brace yields the sentinel. -/
theorem c3_witness :
    parse_claude_response (("no payload in this reply").data) = create_empty_result :=
  c3_malformed_input_sentinel (("no payload in this reply").data) (Or.inl (by decide))

/-- C3 counterexample: the claim says the returned sentinel has all
fields empty, but its `executive_summary` is "Analysis failed". -/
theorem c3_counterexample :
    (parse_claude_response (("the model replied with plain text only").data)).executive_summary
        = Json.str "Analysis failed" ∧
      (parse_claude_response (("the model replied with plain text only").data)).executive_summary
        ≠ Json.str "" := by
  refine ⟨rfl, fun hcontra => ?_⟩
  have h2 : Json.str "Analysis failed" = Json.str "" := hcontra
  simp at h2

/-- C4 (amended): every failure path returns the one fixed sentinel,
whose `executive_summary` is "Analysis failed" (not the empty string),
with empty scores, empty plan string, empty sequences and mappings, and
`overall_score` exactly `0`. -/
theorem c4_failure_paths_fixed_sentinel (response : List Char)
    (h : ∀ d, loads (extractJsonStr response) = some d → buildResult d = none) :
    parse_claude_response response =
      { executive_summary := Json.str "Analysis failed"
        scores := []
        detailed_plan := Json.str ""
        risk_flags := Json.arr []
        build_checklist := Json.arr []
        tech_stack := Json.obj []
        pitch_deck := Json.obj []
        overall_score := 0 } :=
  parse_fail_sentinel h

/-- C4 witness: a payload that loads but fails interpretation returns
the fixed sentinel. -/
theorem c4_witness :
    parse_claude_response (("\x7b\"a\": 1\x7d").data) =
      { executive_summary := Json.str "Analysis failed"
        scores := []
        detailed_plan := Json.str ""
        risk_flags := Json.arr []
        build_checklist := Json.arr []
        tech_stack := Json.obj []
        pitch_deck := Json.obj []
        overall_score := 0 } :=
  c4_failure_paths_fixed_sentinel (("\x7b\"a\": 1\x7d").data)
    (fun d hd => by cases Option.some.inj hd; rfl)

/-- C4 counterexample: the claim describes the sentinel's
`executive_summary` as the empty string; it is "Analysis failed". -/
theorem c4_counterexample :
    (parse_claude_response (("model produced no structured output").data)).executive_summary
        = Json.str "Analysis failed" ∧
      Json.str "Analysis failed" ≠ Json.str "" := by
  refine ⟨rfl, ?_⟩
  simp

/-- C5 (amended): a syntactically valid payload whose `scores` array is
empty makes `sum(...)/len(scores)` raise `ZeroDivisionError`, which the
`except` branch converts into the empty sentinel — the fully populated
result is NOT returned and `overall_score` is not computed as `0.0` by
the mean step. -/
theorem c5_empty_scores_sentinel (response : List Char) (kvs : List (String × Json))
    (hload : loads (extractJsonStr response) = some (Json.obj kvs))
    (hscores : dictGet kvs "scores" = some (Json.arr [])) :
    parse_claude_response response = create_empty_result := by
  apply parse_fail_sentinel
  intro d hd
  rw [hload] at hd
  cases Option.some.inj hd
  apply buildResult_none_cases
  exact Or.inr (Or.inr (Or.inl ⟨[], [], hscores, rfl, rfl⟩))

/-- C5 witness: the concrete empty-scores payload gives the sentinel. -/
theorem c5_witness : parse_claude_response c5resp = create_empty_result :=
  c5_empty_scores_sentinel c5resp c5kvs rfl rfl

/-- C5 counterexample: on the valid empty-scores payload `c5resp` the
interpreter returns the failure sentinel, not the populated result the
claim promises (its executive summary is not the payload value). -/
theorem c5_counterexample :
    parse_claude_response c5resp = create_empty_result ∧
      (parse_claude_response c5resp).executive_summary ≠ Json.str "All good" := by
  refine ⟨rfl, fun hcontra => ?_⟩
  have h2 : Json.str "Analysis failed" = Json.str "All good" := hcontra
  simp at h2

/-- C6: a valid payload missing a required top-level field
(detailed_plan, executive_summary, scores, risk_flags or
build_checklist), or containing a score entry missing dimension, score
or reasoning, yields the empty sentinel — all-or-nothing, never a
partially filled result. -/
theorem c6_missing_required_sentinel (response : List Char) (kvs : List (String × Json))
    (hload : loads (extractJsonStr response) = some (Json.obj kvs))
    (hbad : dictGet kvs "detailed_plan" = none
      ∨ dictGet kvs "executive_summary" = none
      ∨ dictGet kvs "scores" = none
      ∨ dictGet kvs "risk_flags" = none
      ∨ dictGet kvs "build_checklist" = none
      ∨ ∃ entries ekvs, dictGet kvs "scores" = some (Json.arr entries)
          ∧ Json.obj ekvs ∈ entries
          ∧ (dictGet ekvs "dimension" = none ∨ dictGet ekvs "score" = none
              ∨ dictGet ekvs "reasoning" = none)) :
    parse_claude_response response = create_empty_result := by
  apply parse_fail_sentinel
  intro d hd
  rw [hload] at hd
  cases Option.some.inj hd
  apply buildResult_none_cases
  rcases hbad with h | h | h | h | h | ⟨entries, ekvs, h1, h2, h3⟩
  · exact Or.inr (Or.inr (Or.inr (Or.inr (Or.inl h))))
  · exact Or.inr (Or.inr (Or.inr (Or.inl h)))
  · exact Or.inl h
  · exact Or.inr (Or.inr (Or.inr (Or.inr (Or.inr (Or.inl h)))))
  · exact Or.inr (Or.inr (Or.inr (Or.inr (Or.inr (Or.inr h)))))
  · exact Or.inr (Or.inl ⟨entries, h1, mapOption_none_of_mem h2 (mkScore_missing_key h3)⟩)

/-- C6 witness: the payload missing `detailed_plan` gives the sentinel. -/
theorem c6_witness : parse_claude_response c6resp = create_empty_result :=
  c6_missing_required_sentinel c6resp c6kvs rfl (Or.inl rfl)

/-- C7: a valid payload lacking `tech_stack` and/or `pitch_deck` still
parses successfully; the absent field defaults to the empty mapping
while every other field comes from the payload. -/
theorem c7_optional_fields_default (response : List Char) (kvs : List (String × Json))
    (entries : List Json) (scores : List EvaluationScore) (es dp rf bc : Json)
    (hload : loads (extractJsonStr response) = some (Json.obj kvs))
    (hscores : dictGet kvs "scores" = some (Json.arr entries))
    (hmk : mapOption mkScore entries = some scores)
    (hne : scores.length ≠ 0)
    (hes : dictGet kvs "executive_summary" = some es)
    (hdp : dictGet kvs "detailed_plan" = some dp)
    (hrf : dictGet kvs "risk_flags" = some rf)
    (hbc : dictGet kvs "build_checklist" = some bc) :
    parse_claude_response response =
      { executive_summary := es, scores := scores, detailed_plan := dp,
        risk_flags := rf, build_checklist := bc,
        tech_stack := (dictGet kvs "tech_stack").getD (Json.obj []),
        pitch_deck := (dictGet kvs "pitch_deck").getD (Json.obj []),
        overall_score :=
          ((scores.map (fun s => (s.score : ℚ))).sum) / (scores.length : ℚ) } ∧
    (dictGet kvs "tech_stack" = none →
      (parse_claude_response response).tech_stack = Json.obj []) ∧
    (dictGet kvs "pitch_deck" = none →
      (parse_claude_response response).pitch_deck = Json.obj []) := by
  have hmain : parse_claude_response response =
      { executive_summary := es, scores := scores, detailed_plan := dp,
        risk_flags := rf, build_checklist := bc,
        tech_stack := (dictGet kvs "tech_stack").getD (Json.obj []),
        pitch_deck := (dictGet kvs "pitch_deck").getD (Json.obj []),
        overall_score :=
          ((scores.map (fun s => (s.score : ℚ))).sum) / (scores.length : ℚ) } := by
    unfold parse_claude_response
    rw [hload]
    show (buildResult (Json.obj kvs)).getD create_empty_result = _
    rw [buildResult_success hscores hmk hne hes hdp hrf hbc]
    rfl
  refine ⟨hmain, fun hts => ?_, fun hpd => ?_⟩
  · rw [hmain]; simp [hts]
  · rw [hmain]; simp [hpd]

/-- C7 witness: the payload `c7resp` lacking both optional fields
parses, with both mappings defaulting to empty. -/
theorem c7_witness :
    parse_claude_response c7resp =
      { executive_summary := Json.str "fine", scores := c7scores,
        detailed_plan := Json.str "go", risk_flags := Json.arr [Json.str "f"],
        build_checklist := Json.arr [Json.str "c"],
        tech_stack := Json.obj [], pitch_deck := Json.obj [],
        overall_score :=
          ((c7scores.map (fun s => (s.score : ℚ))).sum) / (c7scores.length : ℚ) } ∧
    (parse_claude_response c7resp).tech_stack = Json.obj [] ∧
    (parse_claude_response c7resp).pitch_deck = Json.obj [] := by
  have h := c7_optional_fields_default c7resp c7kvs c7entries c7scores _ _ _ _
    rfl rfl rfl (by decide) rfl rfl rfl rfl
  exact ⟨h.1, h.2.1 rfl, h.2.2 rfl⟩

/-- C9 (amended): the interpreter performs no range validation on
scores — the parsed score integers are taken verbatim into the result,
even when some score lies outside 0-5. -/
theorem c9_scores_verbatim (response : List Char) (kvs : List (String × Json))
    (entries : List Json) (scores : List EvaluationScore) (es dp rf bc : Json)
    (hload : loads (extractJsonStr response) = some (Json.obj kvs))
    (hscores : dictGet kvs "scores" = some (Json.arr entries))
    (hmk : mapOption mkScore entries = some scores)
    (hne : scores.length ≠ 0)
    (hes : dictGet kvs "executive_summary" = some es)
    (hdp : dictGet kvs "detailed_plan" = some dp)
    (hrf : dictGet kvs "risk_flags" = some rf)
    (hbc : dictGet kvs "build_checklist" = some bc)
    (hout : ∃ s, s ∈ scores ∧ (s.score < 0 ∨ 5 < s.score)) :
    (parse_claude_response response).scores = scores := by
  unfold parse_claude_response
  rw [hload]
  show ((buildResult (Json.obj kvs)).getD create_empty_result).scores = _
  rw [buildResult_success hscores hmk hne hes hdp hrf hbc]
  rfl

/-- C9 witness: the payload with score `7` is accepted verbatim. -/
theorem c9_witness :
    (parse_claude_response c9resp).scores = [⟨Json.str "Problem clarity", 7, Json.str "r"⟩] :=
  c9_scores_verbatim c9resp c9kvs c9entries [⟨Json.str "Problem clarity", 7, Json.str "r"⟩]
    _ _ _ _ rfl rfl rfl (by decide) rfl rfl rfl rfl
    ⟨⟨Json.str "Problem clarity", 7, Json.str "r"⟩, List.Mem.head _, Or.inr (by decide)⟩

/-- C9 counterexample: the claim that every produced `EvaluationScore`
lies in 0-5 fails — `c9resp` produces a score of 7. -/
theorem c9_counterexample :
    ¬ (∀ s ∈ (parse_claude_response c9resp).scores, 0 ≤ s.score ∧ s.score ≤ 5) := by
  intro hall
  have hs : (parse_claude_response c9resp).scores
      = [⟨Json.str "Problem clarity", 7, Json.str "r"⟩] := rfl
  have h7 := hall ⟨Json.str "Problem clarity", 7, Json.str "r"⟩
    (by rw [hs]; exact List.Mem.head _)
  exact absurd h7.2 (by decide)

/-- C10: an unknown key in a score entry is not ignored — the call
`EvaluationScore(**score)` raises `TypeError`, so the whole parse fails
and the empty sentinel is returned. -/
theorem c10_unknown_score_key_sentinel (response : List Char) (kvs : List (String × Json))
    (entries : List Json) (ekvs : List (String × Json)) (k : String) (v : Json)
    (hload : loads (extractJsonStr response) = some (Json.obj kvs))
    (hscores : dictGet kvs "scores" = some (Json.arr entries))
    (hmem : Json.obj ekvs ∈ entries)
    (hkv : (k, v) ∈ ekvs)
    (hnk : ¬ k ∈ scoreKeys) :
    parse_claude_response response = create_empty_result := by
  apply parse_fail_sentinel
  intro d hd
  rw [hload] at hd
  cases Option.some.inj hd
  apply buildResult_none_cases
  exact Or.inr (Or.inl ⟨entries, hscores, mapOption_none_of_mem hmem (mkScore_alien_key hkv hnk)⟩)

/-- C10 witness: the payload whose score entry has the alien key
"extra" gives the sentinel. -/
theorem c10_witness : parse_claude_response c10resp = create_empty_result :=
  c10_unknown_score_key_sentinel c10resp c10kvs [Json.obj c10ekvs] c10ekvs "extra" (Json.num 1)
    rfl rfl (List.Mem.head _) (List.Mem.head _) (by decide)

end PitchSnitch
